import Mathlib

/-!
Verification of the deleveraging/ETF planning engine.

Shallow embedding of the repository's core computations over exact rationals
(`ℚ` stands in for Python floats; the claims under study are arithmetic and
structural, not float-specific).

Embedded from the source:
  * `data_models/debt.py` — `Debt`, `DebtPortfolio` and their derived values.
  * `core/cashflow.py` — `calculate_amortization_schedule`, red flags.
  * `core/etf_allocation.py` — `calculate_allocation_split`.
  * `core/simulation.py` — `simulate_etf_growth`, `simulate_combined_scenario`,
    `create_scenario_comparison`, `compare_scenarios`.
  * `core/planner.py` — `validate_inputs`, the control flow of `create_plan`.
  * `data_models/plan.py` — `ScenarioComparison`, the months cell of
    `get_comparison_table`.

The module `core/payoff_strategies.py` (`PayoffStrategyEngine.prioritize`,
`allocate_extra`, `simulate_payoff`) is imported by the repository but its
source is not available; those functions are modelled from the spec
(sections 4.1 and 4.2), as marked on each definition below.
-/

/-- Payoff tolerance: the spec closes a debt once its balance is at most a
small tolerance (spec 4.2 suggests one cent). -/
def payoffTol : ℚ := 1 / 100

/-- A single debt, from `data_models/debt.py` (`Debt`). The category tag and
due day are informational only and are elided. -/
structure Debt where
  name : String
  currentBalance : ℚ
  annualInterestRate : ℚ
  minimumPayment : ℚ
deriving Repr, DecidableEq, Inhabited

/-- Monthly interest rate, `Debt.monthly_interest_rate`. -/
def Debt.monthlyInterestRate (d : Debt) : ℚ :=
  d.annualInterestRate / 12

/-- Interest accrued this month, `Debt.interest_this_month`. -/
def Debt.interestThisMonth (d : Debt) : ℚ :=
  d.currentBalance * d.monthlyInterestRate

/-- A debt portfolio is its ordered list of debts (`DebtPortfolio`). -/
structure DebtPortfolio where
  debts : List Debt
deriving Repr, DecidableEq, Inhabited

/-- Total outstanding balance, `DebtPortfolio.total_balance`. -/
def DebtPortfolio.totalBalance (p : DebtPortfolio) : ℚ :=
  (p.debts.map Debt.currentBalance).sum

/-- Total monthly minimum payments, `DebtPortfolio.total_minimum_payments`. -/
def DebtPortfolio.totalMinimumPayments (p : DebtPortfolio) : ℚ :=
  (p.debts.map Debt.minimumPayment).sum

/-- Whether any debt's rate exceeds the threshold,
`DebtPortfolio.has_high_interest_debt`. -/
def DebtPortfolio.hasHighInterestDebt (p : DebtPortfolio) (threshold : ℚ) : Bool :=
  p.debts.any fun d => threshold < d.annualInterestRate

/-- One row of the amortization schedule from
`core/cashflow.py::calculate_amortization_schedule`: the tuple
(month, payment, interest, principal, remaining_balance). -/
structure AmortEntry where
  month : ℕ
  payment : ℚ
  interest : ℚ
  principal : ℚ
  remainingBalance : ℚ
deriving Repr, DecidableEq, Inhabited

/-- Loop of `calculate_amortization_schedule`, with the month counter and
running balance explicit and the iteration cap as fuel. -/
def amortAux (monthlyRate monthlyPayment : ℚ) : ℕ → ℕ → ℚ → List AmortEntry
  | 0, _, _ => []
  | fuel + 1, month, balance =>
    if balance ≤ 0 then []
    else
      let interest := balance * monthlyRate
      let principalPayment := min (monthlyPayment - interest) balance
      if principalPayment ≤ 0 then []
      else
        let balance2 := balance - principalPayment
        { month := month
          payment := min monthlyPayment (interest + balance2 + principalPayment)
          interest := interest
          principal := principalPayment
          remainingBalance := max 0 balance2 } ::
          amortAux monthlyRate monthlyPayment fuel (month + 1) balance2

/-- `calculate_amortization_schedule(principal, annual_rate, monthly_payment,
max_months)` from `core/cashflow.py`. -/
def calculateAmortizationSchedule (principal annualRate monthlyPayment : ℚ)
    (maxMonths : ℕ) : List AmortEntry :=
  amortAux (annualRate / 12) monthlyPayment maxMonths 1 principal

/-- Balance outstanding before the payment recorded in entry `i` of a
schedule: the starting principal for the first entry, and the previous
entry's recorded remaining balance afterwards. -/
def preEntryBalance (principal : ℚ) (schedule : List AmortEntry) (i : ℕ) : ℚ :=
  if i = 0 then principal else (schedule.getD (i - 1) default).remainingBalance

/-- Payoff strategy tag (`data_models/plan.py::PayoffStrategy`). -/
inductive PayoffStrategy where
  | avalanche
  | snowball
  | hybrid
deriving Repr, DecidableEq, Inhabited

/-- Insert into a list sorted by the boolean comparison `le` (used to give the
modelled `prioritize` a concrete, stable, deterministic sort). -/
def insertBy {α : Type} (le : α → α → Bool) (a : α) : List α → List α
  | [] => [a]
  | b :: l => if le a b then a :: b :: l else b :: insertBy le a l

/-- Insertion sort by the boolean comparison `le`. -/
def sortBy {α : Type} (le : α → α → Bool) : List α → List α
  | [] => []
  | a :: l => insertBy le a (sortBy le l)

/-- Avalanche comparison on index-tagged debts (spec 4.1): descending by
annual interest rate, ties broken by descending balance, then by original
position for determinism. -/
def avalancheLe (x y : ℕ × Debt) : Bool :=
  if y.2.annualInterestRate < x.2.annualInterestRate then true
  else if x.2.annualInterestRate < y.2.annualInterestRate then false
  else if y.2.currentBalance < x.2.currentBalance then true
  else if x.2.currentBalance < y.2.currentBalance then false
  else x.1 ≤ y.1

/-- Snowball comparison on index-tagged debts (spec 4.1): ascending by
current balance, ties broken by descending interest rate, then by original
position for determinism. -/
def snowballLe (x y : ℕ × Debt) : Bool :=
  if x.2.currentBalance < y.2.currentBalance then true
  else if y.2.currentBalance < x.2.currentBalance then false
  else if y.2.annualInterestRate < x.2.annualInterestRate then true
  else if x.2.annualInterestRate < y.2.annualInterestRate then false
  else x.1 ≤ y.1

/-- Modelled from the spec: the hybrid blending rule is left unspecified in
the available source (spec 4.1, 9), so it is pinned down here as the spec's
own suggested example — snowball ordering below a fixed balance threshold of
1000, avalanche ordering above it, with the below-threshold group first. -/
def hybridLe (x y : ℕ × Debt) : Bool :=
  if x.2.currentBalance ≤ 1000 then
    if y.2.currentBalance ≤ 1000 then snowballLe x y else true
  else
    if y.2.currentBalance ≤ 1000 then false else avalancheLe x y

/-- Comparison selected by the strategy tag. -/
def strategyLe : PayoffStrategy → (ℕ × Debt) → (ℕ × Debt) → Bool
  | .avalanche => avalancheLe
  | .snowball => snowballLe
  | .hybrid => hybridLe

/-- Modelled from the spec: `PayoffStrategyEngine.prioritize` (spec 4.1, and
the CLOSED state rule of spec 4.3) — the priority order of a debt list as the
indices of its open debts (balance above the tolerance), sorted by the
strategy's comparison. -/
def prioritize (strategy : PayoffStrategy) (debts : List Debt) : List ℕ :=
  ((sortBy (strategyLe strategy)
      (debts.enum.filter fun x => payoffTol < x.2.currentBalance)).map
    fun x => x.1)

/-- Accrue one month's interest on an open debt and apply its minimum payment
clipped to the balance (spec 4.2). Returns the updated debt, the interest
accrued, and the payment made; closed debts (balance at most the tolerance)
are untouched. -/
def accrueAndPayMin (d : Debt) : Debt × ℚ × ℚ :=
  if payoffTol < d.currentBalance then
    let interest := d.interestThisMonth
    let grown := d.currentBalance + interest
    let pay := min d.minimumPayment grown
    ({ d with currentBalance := grown - pay }, interest, pay)
  else (d, 0, 0)

/-- Apply `accrueAndPayMin` to every debt, returning the updated debts and
the total interest accrued and total minimum payments made this month. -/
def accrueAndPayMinAll (debts : List Debt) : List Debt × ℚ × ℚ :=
  debts.foldr
    (fun d (acc : List Debt × ℚ × ℚ) =>
      let r := accrueAndPayMin d
      (r.1 :: acc.1, r.2.1 + acc.2.1, r.2.2 + acc.2.2))
    ([], 0, 0)

/-- Modelled from the spec: the waterfall of `allocate_extra` (spec 4.1) —
walk the priority order and give each debt the lesser of its remaining
balance and the budget left; returns the updated debts and the total extra
paid out. -/
def waterfall (debts : List Debt) (order : List ℕ) (budget : ℚ) : List Debt × ℚ :=
  match order with
  | [] => (debts, 0)
  | i :: rest =>
    let d := debts.getD i default
    let give := min d.currentBalance budget
    let r := waterfall (debts.set i { d with currentBalance := d.currentBalance - give })
      rest (budget - give)
    (r.1, give + r.2)

/-- Running state of the modelled payoff simulation: the working copy of the
debts (spec 3: the caller's portfolio is never mutated), the aggregated
monthly snapshots (each month's total payment across debts, spec 3), and the
accumulated interest. -/
structure PayoffState where
  debts : List Debt
  snapshots : List ℚ
  totalInterest : ℚ
deriving Repr, DecidableEq, Inhabited

/-- Whether every debt balance is at or below the payoff tolerance
(spec 4.2's loop-termination test). -/
def allPaid (debts : List Debt) : Bool :=
  debts.all fun d => d.currentBalance ≤ payoffTol

/-- Modelled from the spec: one simulated month (spec 4.2) — for every open
debt accrue interest and apply the minimum payment, then waterfall the extra
budget over the freshly computed priority order. -/
def payoffStep (strategy : PayoffStrategy) (extra : ℚ) (s : PayoffState) : PayoffState :=
  let am := accrueAndPayMinAll s.debts
  let order := prioritize strategy am.1
  let wf := waterfall am.1 order extra
  { debts := wf.1
    snapshots := s.snapshots ++ [am.2.2 + wf.2]
    totalInterest := s.totalInterest + am.2.1 }

/-- Fuel-indexed loop of the modelled `simulate_payoff`: stops early once
every balance is within tolerance, returning the months elapsed; exhausting
the fuel returns the elapsed count, which then equals `max_months` (the
spec's sentinel for a payoff unresolved within the horizon). -/
def simulatePayoffAux (strategy : PayoffStrategy) (extra : ℚ) :
    ℕ → ℕ → PayoffState → PayoffState × ℕ
  | 0, elapsed, s => (s, elapsed)
  | fuel + 1, elapsed, s =>
    if allPaid s.debts then (s, elapsed)
    else simulatePayoffAux strategy extra fuel (elapsed + 1) (payoffStep strategy extra s)

/-- Modelled from the spec: `PayoffStrategyEngine.simulate_payoff(debts,
extra_payment, strategy, max_months)` (spec 4.2). Returns the final
simulation state together with `months_to_payoff`, where `max_months` is the
sentinel meaning unresolved within the horizon. -/
def simulatePayoff (debts : List Debt) (extra : ℚ) (strategy : PayoffStrategy)
    (maxMonths : ℕ) : PayoffState × ℕ :=
  simulatePayoffAux strategy extra maxMonths 0 ⟨debts, [], 0⟩

/-- Monthly deposit-then-grow loop shared by `simulate_etf_growth` and both
phases of `simulate_combined_scenario` (`core/simulation.py`): each month the
contribution is added first and the balance is then multiplied by
`1 + monthly_return`. Returns the list of month-end values and the final
balance. -/
def growRun (contribution monthlyReturn balance : ℚ) : ℕ → List ℚ × ℚ
  | 0 => ([], balance)
  | n + 1 =>
    let b2 := (balance + contribution) * (1 + monthlyReturn)
    let r := growRun contribution monthlyReturn b2 n
    (b2 :: r.1, r.2)

/-- `SimulationEngine.simulate_etf_growth` from `core/simulation.py`. -/
def simulateEtfGrowth (monthlyContribution annualReturn : ℚ) (months : ℕ)
    (initialBalance : ℚ) : List ℚ :=
  (growRun monthlyContribution (annualReturn / 12) initialBalance months).1

/-- Result record of `SimulationEngine.simulate_combined_scenario`
(`core/simulation.py`); the `debt_snapshots` list is carried as the per-month
total payments. -/
structure CombinedResult where
  monthsToDebtFree : Option ℕ
  totalInterestPaid : ℚ
  totalDebtPayments : ℚ
  totalEtfContributions : ℚ
  finalEtfValueLow : ℚ
  finalEtfValueMedium : ℚ
  finalEtfValueHigh : ℚ
  debtSnapshots : List ℚ
  etfValuesLow : List ℚ
  etfValuesMedium : List ℚ
  etfValuesHigh : List ℚ
deriving Repr, DecidableEq, Inhabited

/-- Contribution applied in month index `i` (0-based) of
`simulate_combined_scenario`: `monthly_etf` during the first `sim_months`
iterations, and `monthly_etf_after_debt_free` afterwards. -/
def combinedContribution (monthlyEtf afterDebtFree : ℚ) (simMonths : ℕ) (i : ℕ) : ℚ :=
  if i < simMonths then monthlyEtf else afterDebtFree

/-- `SimulationEngine.simulate_combined_scenario` from `core/simulation.py`
(lines 61-176), composed with the spec-modelled `simulatePayoff`. -/
def simulateCombinedScenario (portfolio : DebtPortfolio)
    (monthlyExtraDebt monthlyEtf : ℚ) (strategy : PayoffStrategy)
    (annualReturnLow annualReturnMed annualReturnHigh : ℚ)
    (initialEtfBalance : ℚ) (maxMonths : ℕ) : CombinedResult :=
  let payoff := simulatePayoff portfolio.debts monthlyExtraDebt strategy maxMonths
  let monthsToDebtFree := payoff.2
  let simMonths := min monthsToDebtFree maxMonths
  let afterDebtFree := monthlyEtf + monthlyExtraDebt + portfolio.totalMinimumPayments
  let remainingMonths := maxMonths - simMonths
  let runLow1 := growRun monthlyEtf (annualReturnLow / 12) initialEtfBalance simMonths
  let runMed1 := growRun monthlyEtf (annualReturnMed / 12) initialEtfBalance simMonths
  let runHigh1 := growRun monthlyEtf (annualReturnHigh / 12) initialEtfBalance simMonths
  let runLow2 := growRun afterDebtFree (annualReturnLow / 12) runLow1.2 remainingMonths
  let runMed2 := growRun afterDebtFree (annualReturnMed / 12) runMed1.2 remainingMonths
  let runHigh2 := growRun afterDebtFree (annualReturnHigh / 12) runHigh1.2 remainingMonths
  let etfValuesLow := runLow1.1 ++ runLow2.1
  let etfValuesMed := runMed1.1 ++ runMed2.1
  let etfValuesHigh := runHigh1.1 ++ runHigh2.1
  { monthsToDebtFree :=
      if monthsToDebtFree < maxMonths then some monthsToDebtFree else none
    totalInterestPaid := payoff.1.totalInterest
    totalDebtPayments := payoff.1.snapshots.sum
    totalEtfContributions :=
      monthlyEtf * simMonths + afterDebtFree * remainingMonths
    finalEtfValueLow := (etfValuesLow.getLast?).getD initialEtfBalance
    finalEtfValueMedium := (etfValuesMed.getLast?).getD initialEtfBalance
    finalEtfValueHigh := (etfValuesHigh.getLast?).getD initialEtfBalance
    debtSnapshots := payoff.1.snapshots
    etfValuesLow := etfValuesLow
    etfValuesMedium := etfValuesMed
    etfValuesHigh := etfValuesHigh }

/-- `ScenarioComparison` record from `data_models/plan.py`; the name and
description strings are elided. -/
structure ScenarioComparison where
  monthsToDebtFree : Option ℕ
  totalInterestPaid : ℚ
  totalDebtPayments : ℚ
  totalEtfContributions : ℚ
  estimatedEtfValueLow : ℚ
  estimatedEtfValueMedium : ℚ
  estimatedEtfValueHigh : ℚ
  netWorthAtEndLow : ℚ
  netWorthAtEndMedium : ℚ
  netWorthAtEndHigh : ℚ
deriving Repr, DecidableEq, Inhabited

/-- Remaining-debt figure used by `create_scenario_comparison`
(`core/simulation.py` line 219): Python's
`0.0 if results['months_to_debt_free'] else self.debts.total_balance()` —
zero when the months value is truthy (a nonzero month count), and the
portfolio's total balance when it is `None` or `0`. -/
def remainingDebtFigure (portfolio : DebtPortfolio) : Option ℕ → ℚ
  | some (_ + 1) => 0
  | _ => portfolio.totalBalance

/-- `SimulationEngine.create_scenario_comparison` from `core/simulation.py`
(lines 178-234). It always runs the combined scenario at the default horizon
of 600 months. -/
def createScenarioComparison (portfolio : DebtPortfolio)
    (monthlyExtraDebt monthlyEtf : ℚ) (strategy : PayoffStrategy)
    (annualReturnLow annualReturnMed annualReturnHigh : ℚ)
    (initialEtfBalance : ℚ) : ScenarioComparison :=
  let results := simulateCombinedScenario portfolio monthlyExtraDebt monthlyEtf
    strategy annualReturnLow annualReturnMed annualReturnHigh
    initialEtfBalance 600
  let remainingDebt := remainingDebtFigure portfolio results.monthsToDebtFree
  { monthsToDebtFree := results.monthsToDebtFree
    totalInterestPaid := results.totalInterestPaid
    totalDebtPayments := results.totalDebtPayments
    totalEtfContributions := results.totalEtfContributions
    estimatedEtfValueLow := results.finalEtfValueLow
    estimatedEtfValueMedium := results.finalEtfValueMedium
    estimatedEtfValueHigh := results.finalEtfValueHigh
    netWorthAtEndLow := results.finalEtfValueLow - remainingDebt
    netWorthAtEndMedium := results.finalEtfValueMedium - remainingDebt
    netWorthAtEndHigh := results.finalEtfValueHigh - remainingDebt }

/-- `SimulationEngine.compare_scenarios` from `core/simulation.py`
(lines 236-298): the (minimum-only, 100%-debt, balanced 70/30) scenarios. -/
def compareScenarios (portfolio : DebtPortfolio) (monthlySurplus : ℚ)
    (strategy : PayoffStrategy)
    (annualReturnLow annualReturnMed annualReturnHigh : ℚ)
    (initialEtfBalance : ℚ) :
    ScenarioComparison × ScenarioComparison × ScenarioComparison :=
  let minimumOnly := createScenarioComparison portfolio 0 0 strategy
    annualReturnLow annualReturnMed annualReturnHigh initialEtfBalance
  let debtOnly := createScenarioComparison portfolio monthlySurplus 0 strategy
    annualReturnLow annualReturnMed annualReturnHigh initialEtfBalance
  let balanced := createScenarioComparison portfolio
    (monthlySurplus * (7 / 10)) (monthlySurplus * (3 / 10)) strategy
    annualReturnLow annualReturnMed annualReturnHigh initialEtfBalance
  (minimumOnly, debtOnly, balanced)

/-- Stated from the spec's words (for claim comparison only, not an
embedding of source code): the remaining debt balance at the horizon —
zero if payoff occurred within the horizon, and otherwise the outstanding
balance of the unresolved debts at the horizon (spec 4.3). -/
def specRemainingDebtAtHorizon (portfolio : DebtPortfolio) (extra : ℚ)
    (strategy : PayoffStrategy) (maxMonths : ℕ) : ℚ :=
  let payoff := simulatePayoff portfolio.debts extra strategy maxMonths
  if payoff.2 < maxMonths then 0
  else ((payoff.1.debts.map Debt.currentBalance).sum)

/-- Balance seen at the start of month index `i` of a deposit-then-grow
trajectory: the initial balance for `i = 0`, and the previous month-end
value afterwards. -/
def nthBalance (initial : ℚ) (values : List ℚ) : ℕ → ℚ
  | 0 => initial
  | i + 1 => values.getD i 0

/-- Months cell of `PlanOutput.get_comparison_table`
(`data_models/plan.py` lines 158-161): Python renders
`f"{m:.0f}" if months else "N/A"`, so both `None` and a zero month count
fall to the string `N/A`. -/
def monthsCell : Option ℕ → String
  | some (n + 1) => toString (n + 1)
  | _ => "N/A"

/-- Risk tolerance (`data_models/user_profile.py::RiskTolerance`). -/
inductive RiskTolerance where
  | conservative
  | moderate
  | aggressive
deriving Repr, DecidableEq, Inhabited

/-- Pay frequency (`data_models/user_profile.py::PayFrequency`). -/
inductive PayFrequency where
  | weekly
  | biWeekly
  | semiMonthly
  | monthly
  | annually
deriving Repr, DecidableEq, Inhabited

/-- An income source (`IncomeStream`); the name is elided. -/
structure IncomeStream where
  amount : ℚ
  frequency : PayFrequency
deriving Repr, DecidableEq, Inhabited

/-- Monthly equivalent of an income stream, `IncomeStream.monthly_amount`. -/
def IncomeStream.monthlyAmount (s : IncomeStream) : ℚ :=
  s.amount *
    (match s.frequency with
     | .weekly => 52 / 12
     | .biWeekly => 26 / 12
     | .semiMonthly => 2
     | .monthly => 1
     | .annually => 1 / 12)

/-- A recurring expense (`Expense`); the name is elided. -/
structure Expense where
  amount : ℚ
  isEssential : Bool
deriving Repr, DecidableEq, Inhabited

/-- User financial profile (`data_models/user_profile.py::UserProfile`). -/
structure UserProfile where
  incomeStreams : List IncomeStream
  expenses : List Expense
  currentSavings : ℚ
  currentInvestments : ℚ
  riskTolerance : RiskTolerance
  timeHorizonMonths : ℤ
  emergencyFundMonths : ℚ
deriving Repr, DecidableEq, Inhabited

/-- `UserProfile.total_monthly_income`. -/
def UserProfile.totalMonthlyIncome (p : UserProfile) : ℚ :=
  (p.incomeStreams.map IncomeStream.monthlyAmount).sum

/-- `UserProfile.total_monthly_expenses`. -/
def UserProfile.totalMonthlyExpenses (p : UserProfile) : ℚ :=
  (p.expenses.map Expense.amount).sum

/-- `UserProfile.essential_monthly_expenses`. -/
def UserProfile.essentialMonthlyExpenses (p : UserProfile) : ℚ :=
  ((p.expenses.filter Expense.isEssential).map Expense.amount).sum

/-- `UserProfile.emergency_fund_target`. -/
def UserProfile.emergencyFundTarget (p : UserProfile) : ℚ :=
  p.essentialMonthlyExpenses * p.emergencyFundMonths

/-- `UserProfile.has_adequate_emergency_fund`. -/
def UserProfile.hasAdequateEmergencyFund (p : UserProfile) : Bool :=
  p.emergencyFundTarget ≤ p.currentSavings

/-- Warning and red-flag messages produced by `UserProfile.validate`,
`Debt.validate`, `DebtPortfolio.validate` and `CashflowAnalyzer.get_red_flags`,
as an inductive tag per message template. The due-day range check of
`Debt.validate` is elided along with the due-day field (informational only,
and its message is neither CRITICAL-prefixed nor negative-related). -/
inductive Warning where
  | noIncomeStreams
  | nonPositiveIncome
  | negativeExpenses
  | negativeSavings
  | negativeInvestments
  | nonPositiveHorizon
  | negativeEmergencyMonths
  | profileNegativeCashflow
  | profileLowEmergencyFund
  | noDebtsDefined
  | debtNegativeBalance (name : String)
  | debtNegativeRate (name : String)
  | debtRateOver100 (name : String)
  | debtNegativeMinimumPayment (name : String)
  | debtMinBelowInterest (name : String)
  | flagNegativeCashflow
  | flagLowSurplus
  | flagHighDebtToIncome
  | flagHighDebtService
  | flagInadequateEmergencyFund
  | flagHighInterestDebt (name : String)
  | flagMinNotCoverInterest (name : String)
deriving Repr, DecidableEq, Inhabited

/-- Rendered message text of each warning. Interpolated numeric amounts are
elided: they are digit strings, which cannot affect the planner's
`startswith("CRITICAL")` / `"cannot be negative" in w` classification that is
the only consumer of these texts in the embedded code. -/
def Warning.render : Warning → String
  | .noIncomeStreams => "No income streams defined"
  | .nonPositiveIncome => "Total monthly income must be positive"
  | .negativeExpenses => "Total monthly expenses cannot be negative"
  | .negativeSavings => "Current savings cannot be negative"
  | .negativeInvestments => "Current investments cannot be negative"
  | .nonPositiveHorizon => "Time horizon must be positive"
  | .negativeEmergencyMonths => "Emergency fund months cannot be negative"
  | .profileNegativeCashflow =>
      "WARNING: Monthly expenses exceed income (negative cashflow)"
  | .profileLowEmergencyFund =>
      "WARNING: Emergency fund is below recommended target"
  | .noDebtsDefined => "No debts defined"
  | .debtNegativeBalance n => n ++ ": Balance cannot be negative"
  | .debtNegativeRate n => n ++ ": Interest rate cannot be negative"
  | .debtRateOver100 n => n ++ ": WARNING: Interest rate exceeds 100% APR"
  | .debtNegativeMinimumPayment n => n ++ ": Minimum payment cannot be negative"
  | .debtMinBelowInterest n =>
      n ++ ": CRITICAL: Minimum payment does not cover monthly interest. " ++
        "Debt will grow indefinitely."
  | .flagNegativeCashflow =>
      "CRITICAL: Negative monthly cashflow. " ++
        "Expenses and debt payments exceed income."
  | .flagLowSurplus => "WARNING: Very low monthly surplus. " ++
      "Limited room for extra payments or emergencies."
  | .flagHighDebtToIncome => "WARNING: High debt-to-income ratio. " ++
      "Consider debt consolidation or credit counseling."
  | .flagHighDebtService => "WARNING: High debt service ratio. " ++
      "Debt payments consume a large portion of income."
  | .flagInadequateEmergencyFund =>
      "WARNING: Emergency fund below recommended months of expenses."
  | .flagHighInterestDebt n => "WARNING: High-interest debt detected. " ++ n ++
      " has high APR. Prioritize paying this down."
  | .flagMinNotCoverInterest n => "CRITICAL: " ++ n ++
      " minimum payment does not cover interest. " ++
      "Balance will grow indefinitely. Increase payments immediately."

/-- Whether `small` occurs as a prefix of `big` (on character lists). -/
def listStartsWith {α : Type} [DecidableEq α] : List α → List α → Bool
  | [], _ => true
  | _ :: _, [] => false
  | a :: as, b :: bs => a = b && listStartsWith as bs

/-- Whether `needle` occurs as a contiguous sublist of `hay`. -/
def listHasInfix {α : Type} [DecidableEq α] (needle : List α) : List α → Bool
  | [] => listStartsWith needle []
  | b :: bs => listStartsWith needle (b :: bs) || listHasInfix needle bs

/-- Critical-error classification from `DeleveragingPlanner.validate_inputs`
(`core/planner.py` lines 63-66): a warning is critical when its text starts
with `CRITICAL` or contains `cannot be negative`. -/
def Warning.isCritical (w : Warning) : Bool :=
  listStartsWith "CRITICAL".toList w.render.toList ||
    listHasInfix "cannot be negative".toList w.render.toList

/-- `UserProfile.validate` from `data_models/user_profile.py`. -/
def UserProfile.validate (p : UserProfile) : List Warning :=
  (if p.incomeStreams.isEmpty then [Warning.noIncomeStreams] else []) ++
  (if p.totalMonthlyIncome ≤ 0 then [Warning.nonPositiveIncome] else []) ++
  (if p.totalMonthlyExpenses < 0 then [Warning.negativeExpenses] else []) ++
  (if p.currentSavings < 0 then [Warning.negativeSavings] else []) ++
  (if p.currentInvestments < 0 then [Warning.negativeInvestments] else []) ++
  (if p.timeHorizonMonths ≤ 0 then [Warning.nonPositiveHorizon] else []) ++
  (if p.emergencyFundMonths < 0 then [Warning.negativeEmergencyMonths] else []) ++
  (if p.totalMonthlyIncome < p.totalMonthlyExpenses
    then [Warning.profileNegativeCashflow] else []) ++
  (if p.hasAdequateEmergencyFund then [] else [Warning.profileLowEmergencyFund])

/-- `Debt.validate` from `data_models/debt.py` (due-day check elided, see
`Warning`). -/
def Debt.validate (d : Debt) : List Warning :=
  (if d.currentBalance < 0 then [Warning.debtNegativeBalance d.name] else []) ++
  (if d.annualInterestRate < 0 then [Warning.debtNegativeRate d.name] else []) ++
  (if 1 < d.annualInterestRate then [Warning.debtRateOver100 d.name] else []) ++
  (if d.minimumPayment < 0
    then [Warning.debtNegativeMinimumPayment d.name] else []) ++
  (if 0 < d.currentBalance ∧ d.minimumPayment ≤ d.interestThisMonth
    then [Warning.debtMinBelowInterest d.name] else [])

/-- `DebtPortfolio.validate` from `data_models/debt.py`. -/
def DebtPortfolio.validate (p : DebtPortfolio) : List Warning :=
  (if p.debts.isEmpty then [Warning.noDebtsDefined] else []) ++
  (p.debts.map Debt.validate).flatten

/-- `CashflowAnalyzer.monthly_obligations` (`core/cashflow.py`). -/
def monthlyObligations (profile : UserProfile) (debts : DebtPortfolio) : ℚ :=
  profile.totalMonthlyExpenses + debts.totalMinimumPayments

/-- `CashflowAnalyzer.monthly_surplus` (`core/cashflow.py`). -/
def monthlySurplus (profile : UserProfile) (debts : DebtPortfolio) : ℚ :=
  profile.totalMonthlyIncome - monthlyObligations profile debts

/-- `CashflowAnalyzer.has_positive_cashflow`. -/
def hasPositiveCashflow (profile : UserProfile) (debts : DebtPortfolio) : Bool :=
  0 < monthlySurplus profile debts

/-- `CashflowAnalyzer.debt_to_income_ratio`; `none` models the Python
`float('inf')` returned when annual income is zero. -/
def debtToIncomeRatio (profile : UserProfile) (debts : DebtPortfolio) : Option ℚ :=
  let annualIncome := profile.totalMonthlyIncome * 12
  if annualIncome = 0 then none else some (debts.totalBalance / annualIncome)

/-- `CashflowAnalyzer.debt_service_ratio`; `none` models `float('inf')`. -/
def debtServiceRatio (profile : UserProfile) (debts : DebtPortfolio) : Option ℚ :=
  if profile.totalMonthlyIncome = 0 then none
  else some (debts.totalMinimumPayments / profile.totalMonthlyIncome)

/-- Comparison `ratio > threshold` under the `none`-is-infinity convention of
`debtToIncomeRatio` and `debtServiceRatio`. -/
def ratioExceeds (r : Option ℚ) (threshold : ℚ) : Bool :=
  match r with
  | none => true
  | some q => threshold < q

/-- `CashflowAnalyzer.get_red_flags` from `core/cashflow.py` (lines 126-192),
in source order. -/
def getRedFlags (profile : UserProfile) (debts : DebtPortfolio) : List Warning :=
  (if hasPositiveCashflow profile debts then [] else [Warning.flagNegativeCashflow]) ++
  (if 0 < monthlySurplus profile debts ∧ monthlySurplus profile debts < 100
    then [Warning.flagLowSurplus] else []) ++
  (if ratioExceeds (debtToIncomeRatio profile debts) 2
    then [Warning.flagHighDebtToIncome] else []) ++
  (if ratioExceeds (debtServiceRatio profile debts) (43 / 100)
    then [Warning.flagHighDebtService] else []) ++
  (if profile.hasAdequateEmergencyFund then []
    else [Warning.flagInadequateEmergencyFund]) ++
  (if debts.hasHighInterestDebt (20 / 100) then
    match debts.debts.foldl
      (fun best d =>
        match best with
        | none => some d
        | some b =>
          if b.annualInterestRate < d.annualInterestRate then some d else some b)
      none with
    | some highest => [Warning.flagHighInterestDebt highest.name]
    | none => []
  else []) ++
  ((debts.debts.filter fun d =>
      0 < d.currentBalance ∧ d.minimumPayment ≤ d.interestThisMonth).map
    fun d => Warning.flagMinNotCoverInterest d.name)

/-- `CashflowAnalyzer.calculate_safe_surplus` with the default 10% safety
margin (`core/cashflow.py` lines 194-209). -/
def calculateSafeSurplus (profile : UserProfile) (debts : DebtPortfolio) : ℚ :=
  let surplus := monthlySurplus profile debts
  if surplus ≤ 0 then 0 else max 0 (surplus * (1 - 1 / 10))

/-- `ETFAllocationEngine.calculate_allocation_split` from
`core/etf_allocation.py` (lines 38-123); the reasoning strings are elided,
returning only the (debt share, ETF share) pair. -/
def calculateAllocationSplit (profile : UserProfile) (debts : DebtPortfolio)
    (surplus : ℚ) : ℚ × ℚ :=
  if surplus ≤ 0 then (1, 0)
  else if ¬ profile.hasAdequateEmergencyFund then (1, 0)
  else if debts.hasHighInterestDebt (20 / 100) then (1, 0)
  else if debts.hasHighInterestDebt (15 / 100) then
    if profile.riskTolerance = .aggressive then (85 / 100, 15 / 100)
    else (90 / 100, 10 / 100)
  else if debts.hasHighInterestDebt (10 / 100) then
    match profile.riskTolerance with
    | .conservative => (80 / 100, 20 / 100)
    | .moderate => (70 / 100, 30 / 100)
    | .aggressive => (60 / 100, 40 / 100)
  else
    match profile.riskTolerance with
    | .conservative => (70 / 100, 30 / 100)
    | .moderate => (60 / 100, 40 / 100)
    | .aggressive => (50 / 100, 50 / 100)

/-- `ETFAllocationEngine.get_expected_returns`. -/
def getExpectedReturns : RiskTolerance → ℚ × ℚ × ℚ
  | .conservative => (3 / 100, 5 / 100, 7 / 100)
  | .moderate => (4 / 100, 7 / 100, 10 / 100)
  | .aggressive => (5 / 100, 8 / 100, 12 / 100)

/-- `DeleveragingPlanner.validate_inputs` from `core/planner.py`
(lines 44-70): all warnings, and validity as the absence of critical ones. -/
def validateInputs (profile : UserProfile) (debts : DebtPortfolio) :
    Bool × List Warning :=
  let warnings := profile.validate ++ debts.validate ++ getRedFlags profile debts
  ((warnings.filter Warning.isCritical).isEmpty, warnings)

/-- Modelled from the spec: `PayoffStrategyEngine.calculate_interest_saved`
(spec 4.2) — the simulator run twice on independent copies, once with the
given extra payment and once with zero, returning both interest totals. -/
def calculateInterestSaved (debts : List Debt) (extra : ℚ)
    (strategy : PayoffStrategy) : ℚ × ℚ :=
  ((simulatePayoff debts extra strategy 600).1.totalInterest,
   (simulatePayoff debts 0 strategy 600).1.totalInterest)

/-- Outcome of `DeleveragingPlanner.create_plan`: either the early return
with warnings only (no simulation is run), or the full plan output carrying
the recommended simulation results, the interest saved, and the three
comparison scenarios. Narrative strings are elided. -/
inductive CreatePlanResult where
  | errorOut (warnings : List Warning)
  | planOut (recommended : CombinedResult) (interestSaved : ℚ)
      (minimumOnly debtOnly balanced : ScenarioComparison)
      (warnings : List Warning)
deriving Repr, DecidableEq, Inhabited

/-- Whether `create_plan` reached the simulation stage. -/
def CreatePlanResult.ranSimulation : CreatePlanResult → Bool
  | .errorOut _ => false
  | .planOut _ _ _ _ _ _ => true

/-- `DeleveragingPlanner.create_plan` from `core/planner.py` (lines 72-202)
with its default arguments (safe surplus, no custom split): validates inputs,
and on any critical error returns the empty plan without simulating;
otherwise computes the allocation split and runs the recommended simulation
and the three comparison scenarios. -/
def createPlan (profile : UserProfile) (debts : DebtPortfolio)
    (strategy : PayoffStrategy) : CreatePlanResult :=
  let v := validateInputs profile debts
  if v.1 then
    let surplus := calculateSafeSurplus profile debts
    let split := calculateAllocationSplit profile debts surplus
    let monthlyExtraDebt := surplus * split.1
    let monthlyEtf := surplus * split.2
    let rets := getExpectedReturns profile.riskTolerance
    let recommended := simulateCombinedScenario debts monthlyExtraDebt monthlyEtf
      strategy rets.1 rets.2.1 rets.2.2 profile.currentInvestments 600
    let saved := calculateInterestSaved debts.debts monthlyExtraDebt strategy
    let cmp := compareScenarios debts surplus strategy rets.1 rets.2.1 rets.2.2
      profile.currentInvestments
    .planOut recommended (saved.2 - saved.1) cmp.1 cmp.2.1 cmp.2.2 v.2
  else .errorOut v.2

/-- Number of months of the first (during-payoff) phase of
`simulate_combined_scenario`: `sim_months = min(months_to_debt_free,
max_months)`. -/
def combinedSimMonths (portfolio : DebtPortfolio) (extra : ℚ)
    (strategy : PayoffStrategy) (maxMonths : ℕ) : ℕ :=
  min (simulatePayoff portfolio.debts extra strategy maxMonths).2 maxMonths

/-- `monthly_etf_after_debt_free` of `simulate_combined_scenario`
(`core/simulation.py` line 101): the base ETF contribution plus the extra
debt payment plus all the portfolio's minimum payments. -/
def afterDebtFreeContribution (portfolio : DebtPortfolio)
    (extra etf : ℚ) : ℚ :=
  etf + extra + portfolio.totalMinimumPayments

/-- Balance of an open debt after a month's interest accrual and minimum
payment (spec 4.2), before the extra-budget waterfall. -/
def postMinBalance (d : Debt) : ℚ :=
  d.currentBalance + d.interestThisMonth -
    min d.minimumPayment (d.currentBalance + d.interestThisMonth)

/-- One simulated month of the modelled payoff loop specialised to a
single-debt portfolio (spec 4.2): accrue interest, apply the minimum payment
clipped to the grown balance, then apply the extra-budget waterfall if the
debt is still open. Returns the next balance. -/
def singleDebtNext (extra : ℚ) (d : Debt) : ℚ :=
  if payoffTol < postMinBalance d then
    postMinBalance d - min (postMinBalance d) extra
  else postMinBalance d

theorem amortAux_entry_invariant (monthlyRate monthlyPayment : ℚ) :
    ∀ fuel month (balance : ℚ) i,
      i < (amortAux monthlyRate monthlyPayment fuel month balance).length →
      ((amortAux monthlyRate monthlyPayment fuel month balance).getD i
            default).payment =
          ((amortAux monthlyRate monthlyPayment fuel month balance).getD i
              default).interest +
            ((amortAux monthlyRate monthlyPayment fuel month balance).getD i
                default).principal ∧
        ((amortAux monthlyRate monthlyPayment fuel month balance).getD i
              default).principal ≤
          (if i = 0 then balance
           else ((amortAux monthlyRate monthlyPayment fuel month balance).getD
                (i - 1) default).remainingBalance) ∧
        0 ≤ ((amortAux monthlyRate monthlyPayment fuel month balance).getD i
            default).remainingBalance := by
  intro fuel
  induction fuel with
  | zero => intro month balance i h; simp [amortAux] at h
  | succ fuel ih =>
    intro month balance i h
    rw [amortAux] at h ⊢
    by_cases h1 : balance ≤ 0
    · simp [h1] at h
    · simp only [if_neg h1] at h ⊢
      by_cases h2 : min (monthlyPayment - balance * monthlyRate) balance ≤ 0
      · simp [h2] at h
      · simp only [if_neg h2] at h ⊢
        match i with
        | 0 =>
          refine ⟨?_, ?_, ?_⟩
          · simp only [List.getD_cons_zero]
            rcases le_total (monthlyPayment - balance * monthlyRate) balance with hc | hc
            · rw [min_eq_left hc, min_eq_left (by linarith)]
              ring
            · rw [min_eq_right hc, min_eq_right (by linarith)]
              ring
          · simp only [List.getD_cons_zero, if_pos rfl]
            exact min_le_right _ _
          · simp only [List.getD_cons_zero]
            exact le_max_left 0 _
        | Nat.succ j =>
          simp only [List.getD_cons_succ] at h ⊢
          simp only [List.length_cons, Nat.succ_lt_succ_iff] at h
          have hrec := ih (month + 1)
            (balance - min (monthlyPayment - balance * monthlyRate) balance) j
            (by simpa using h)
          refine ⟨hrec.1, ?_, hrec.2.2⟩
          match j with
          | 0 =>
            simp only [if_neg (Nat.succ_ne_zero 0), Nat.succ_sub_one,
              List.getD_cons_zero]
            refine le_trans ?_ (le_max_right 0 _)
            simpa using hrec.2.1
          | Nat.succ k =>
            have hne : (k + 1 + 1 : ℕ) ≠ 0 := by omega
            simp only [if_neg hne, Nat.succ_sub_one, List.getD_cons_succ]
            have hne2 : (k + 1 : ℕ) ≠ 0 := by omega
            simpa [if_neg hne2] using hrec.2.1

/-- C7: every entry of `calculate_amortization_schedule` records a payment
equal to its interest portion plus its principal portion, and the principal
portion never exceeds the balance outstanding before that month's payment. -/
theorem c7_amort_payment_conservation (principal annualRate monthlyPayment : ℚ)
    (maxMonths : ℕ) (hp : 0 ≤ principal) (hr : 0 ≤ annualRate) :
    ∀ i,
      i < (calculateAmortizationSchedule principal annualRate monthlyPayment
          maxMonths).length →
      ((calculateAmortizationSchedule principal annualRate monthlyPayment
              maxMonths).getD i default).payment =
          ((calculateAmortizationSchedule principal annualRate monthlyPayment
                maxMonths).getD i default).interest +
            ((calculateAmortizationSchedule principal annualRate monthlyPayment
                  maxMonths).getD i default).principal ∧
        ((calculateAmortizationSchedule principal annualRate monthlyPayment
              maxMonths).getD i default).principal ≤
          preEntryBalance principal
            (calculateAmortizationSchedule principal annualRate monthlyPayment
              maxMonths) i := by
  intro i h
  have := amortAux_entry_invariant (annualRate / 12) monthlyPayment maxMonths 1
    principal i h
  exact ⟨this.1, by simpa [preEntryBalance, calculateAmortizationSchedule]
    using this.2.1⟩

theorem c7_amort_payment_conservation_witness :
    (0 : ℚ) ≤ 1000 ∧ (0 : ℚ) ≤ 18 / 100 ∧
      ∀ i,
        i < (calculateAmortizationSchedule 1000 (18 / 100) 50 600).length →
        ((calculateAmortizationSchedule 1000 (18 / 100) 50 600).getD i
              default).payment =
            ((calculateAmortizationSchedule 1000 (18 / 100) 50 600).getD i
                default).interest +
              ((calculateAmortizationSchedule 1000 (18 / 100) 50 600).getD i
                  default).principal ∧
          ((calculateAmortizationSchedule 1000 (18 / 100) 50 600).getD i
                default).principal ≤
            preEntryBalance 1000
              (calculateAmortizationSchedule 1000 (18 / 100) 50 600) i :=
  ⟨by norm_num, by norm_num,
    c7_amort_payment_conservation 1000 (18 / 100) 50 600 (by norm_num)
      (by norm_num)⟩

/-- C8: no remaining-balance field of any entry of
`calculate_amortization_schedule` is negative. -/
theorem c8_amort_balance_nonneg (principal annualRate monthlyPayment : ℚ)
    (maxMonths : ℕ) (hp : 0 ≤ principal) (hr : 0 ≤ annualRate) :
    ∀ i,
      i < (calculateAmortizationSchedule principal annualRate monthlyPayment
          maxMonths).length →
      0 ≤ ((calculateAmortizationSchedule principal annualRate monthlyPayment
          maxMonths).getD i default).remainingBalance := by
  intro i h
  exact (amortAux_entry_invariant (annualRate / 12) monthlyPayment maxMonths 1
    principal i h).2.2

theorem c8_amort_balance_nonneg_witness :
    (0 : ℚ) ≤ 1000 ∧ (0 : ℚ) ≤ 18 / 100 ∧
      ∀ i,
        i < (calculateAmortizationSchedule 1000 (18 / 100) 50 600).length →
        0 ≤ ((calculateAmortizationSchedule 1000 (18 / 100) 50 600).getD i
            default).remainingBalance :=
  ⟨by norm_num, by norm_num,
    c8_amort_balance_nonneg 1000 (18 / 100) 50 600 (by norm_num) (by norm_num)⟩

theorem growRun_length (c r : ℚ) : ∀ (n : ℕ) (b : ℚ),
    (growRun c r b n).1.length = n := by
  intro n
  induction n with
  | zero => intro b; simp [growRun]
  | succ n ih => intro b; simp [growRun, ih]

theorem growRun_zero (c r b : ℚ) : growRun c r b 0 = ([], b) := rfl

theorem growRun_getD_zero (c r b : ℚ) (n : ℕ) (h : 0 < n) :
    (growRun c r b n).1.getD 0 0 = (b + c) * (1 + r) := by
  match n, h with
  | Nat.succ m, _ => simp [growRun]

theorem growRun_getD_succ (c r : ℚ) : ∀ (n : ℕ) (b : ℚ) (i : ℕ), i + 1 < n →
    (growRun c r b n).1.getD (i + 1) 0 =
      ((growRun c r b n).1.getD i 0 + c) * (1 + r) := by
  intro n
  induction n with
  | zero => intro b i h; omega
  | succ n ih =>
    intro b i h
    match i with
    | 0 =>
      have hn : 0 < n := by omega
      simp only [growRun, List.getD_cons_succ, List.getD_cons_zero]
      exact growRun_getD_zero c r _ n hn
    | Nat.succ j =>
      have hj : j + 1 < n := by omega
      simp only [growRun, List.getD_cons_succ]
      exact ih _ j hj

theorem growRun_final (c r : ℚ) : ∀ (n : ℕ) (b : ℚ), 0 < n →
    (growRun c r b n).2 = (growRun c r b n).1.getD (n - 1) 0 := by
  intro n
  induction n with
  | zero => intro b h; omega
  | succ n ih =>
    intro b h
    match n, ih with
    | 0, _ => simp [growRun]
    | Nat.succ m, ih =>
      simp only [growRun, Nat.succ_sub_one, List.getD_cons_succ]
      exact ih _ (Nat.succ_pos m)

theorem growRun_last_getD (c r : ℚ) : ∀ (n : ℕ) (b : ℚ),
    (growRun c r b n).1.getLast?.getD b = (growRun c r b n).2 := by
  intro n
  induction n with
  | zero => intro b; simp [growRun]
  | succ n ih =>
    intro b
    simp only [growRun, List.getLast?_cons, Option.getD_some]
    exact ih ((b + c) * (1 + r))

theorem growRun_last_some (c r : ℚ) (n : ℕ) (b : ℚ) (h : 0 < n) :
    (growRun c r b n).1.getLast? = some ((growRun c r b n).2) := by
  match n, h with
  | Nat.succ m, _ =>
    simp only [growRun, List.getLast?_cons]
    exact congrArg some (growRun_last_getD c r m ((b + c) * (1 + r)))

theorem growRun_zero_rate (c : ℚ) : ∀ (n : ℕ) (b : ℚ),
    (growRun c 0 b n).2 = b + n * c := by
  intro n
  induction n with
  | zero => intro b; simp [growRun]
  | succ n ih =>
    intro b
    simp only [growRun, ih]
    push_cast
    ring

theorem combinedVals_getD (c1 c2 r b : ℚ) (sm k : ℕ) :
    ∀ i, i < sm + k →
      ((growRun c1 r b sm).1 ++
          (growRun c2 r (growRun c1 r b sm).2 k).1).getD i 0 =
        (nthBalance b
            ((growRun c1 r b sm).1 ++ (growRun c2 r (growRun c1 r b sm).2 k).1)
            i +
          (if i < sm then c1 else c2)) * (1 + r) := by
  intro i hi
  have hlen1 : (growRun c1 r b sm).1.length = sm := growRun_length c1 r sm b
  by_cases hsm : i < sm
  · rw [List.getD_append _ _ _ _ (by rw [hlen1]; exact hsm), if_pos hsm]
    match i with
    | 0 =>
      rw [growRun_getD_zero c1 r b sm hsm]
      rfl
    | Nat.succ j =>
      rw [growRun_getD_succ c1 r sm b j hsm]
      have hj : j < sm := by omega
      simp only [nthBalance]
      rw [List.getD_append _ _ _ _ (by rw [hlen1]; exact hj)]
  · push_neg at hsm
    rw [List.getD_append_right _ _ _ _ (by rw [hlen1]; exact hsm), hlen1,
      if_neg (by omega)]
    rcases Nat.eq_or_lt_of_le hsm with heq | hlt
    · have hk : 0 < k := by omega
      rw [← heq, Nat.sub_self]
      rw [growRun_getD_zero c2 r _ k hk]
      match sm, heq with
      | 0, _ => simp [nthBalance, growRun]
      | Nat.succ j, _ =>
        have hfin := growRun_final c1 r (j + 1) b (Nat.succ_pos j)
        simp only [Nat.add_sub_cancel] at hfin
        simp only [nthBalance]
        rw [List.getD_append _ _ _ _ (by rw [growRun_length]; omega), ← hfin]
    · have hu : i - sm = (i - sm - 1) + 1 := by omega
      rw [hu, growRun_getD_succ c2 r k _ _ (by omega)]
      have hi1 : i = (i - 1) + 1 := by omega
      rw [hi1]
      simp only [nthBalance]
      rw [List.getD_append_right _ _ _ _ (by rw [hlen1]; omega), hlen1]
      have h2 : i - 1 + 1 - sm - 1 = i - sm - 1 := by omega
      have h3 : i - 1 - sm = i - sm - 1 := by omega
      rw [h2, h3]

/-- C10: each of the three investment-value trajectories returned by
`simulate_combined_scenario` contains exactly `max_months` entries, for every
input and regardless of when or whether debt payoff occurs. -/
theorem c10_trajectories_cover_horizon (portfolio : DebtPortfolio)
    (extra etf : ℚ) (strategy : PayoffStrategy) (rl rm rh init : ℚ)
    (maxMonths : ℕ) :
    (simulateCombinedScenario portfolio extra etf strategy rl rm rh init
        maxMonths).etfValuesLow.length = maxMonths ∧
    (simulateCombinedScenario portfolio extra etf strategy rl rm rh init
        maxMonths).etfValuesMedium.length = maxMonths ∧
    (simulateCombinedScenario portfolio extra etf strategy rl rm rh init
        maxMonths).etfValuesHigh.length = maxMonths := by
  have hm : min (simulatePayoff portfolio.debts extra strategy maxMonths).2
      maxMonths ≤ maxMonths := Nat.min_le_right _ _
  refine ⟨?_, ?_, ?_⟩ <;>
    simp only [simulateCombinedScenario, List.length_append, growRun_length] <;>
    omega

theorem simulateCombined_etfValues (portfolio : DebtPortfolio) (extra etf : ℚ)
    (strategy : PayoffStrategy) (rl rm rh init : ℚ) (maxMonths : ℕ) :
    (simulateCombinedScenario portfolio extra etf strategy rl rm rh init
        maxMonths).etfValuesLow =
      (growRun etf (rl / 12) init
          (combinedSimMonths portfolio extra strategy maxMonths)).1 ++
        (growRun (afterDebtFreeContribution portfolio extra etf) (rl / 12)
            (growRun etf (rl / 12) init
              (combinedSimMonths portfolio extra strategy maxMonths)).2
            (maxMonths - combinedSimMonths portfolio extra strategy maxMonths)).1 ∧
    (simulateCombinedScenario portfolio extra etf strategy rl rm rh init
        maxMonths).etfValuesMedium =
      (growRun etf (rm / 12) init
          (combinedSimMonths portfolio extra strategy maxMonths)).1 ++
        (growRun (afterDebtFreeContribution portfolio extra etf) (rm / 12)
            (growRun etf (rm / 12) init
              (combinedSimMonths portfolio extra strategy maxMonths)).2
            (maxMonths - combinedSimMonths portfolio extra strategy maxMonths)).1 ∧
    (simulateCombinedScenario portfolio extra etf strategy rl rm rh init
        maxMonths).etfValuesHigh =
      (growRun etf (rh / 12) init
          (combinedSimMonths portfolio extra strategy maxMonths)).1 ++
        (growRun (afterDebtFreeContribution portfolio extra etf) (rh / 12)
            (growRun etf (rh / 12) init
              (combinedSimMonths portfolio extra strategy maxMonths)).2
            (maxMonths - combinedSimMonths portfolio extra strategy maxMonths)).1 := by
  refine ⟨rfl, rfl, rfl⟩

/-- C5: once debt is cleared (or the horizon is reached), every remaining
month's investment contribution in `simulate_combined_scenario` equals the
base ETF contribution plus the extra debt payment plus all the portfolio's
minimum payments, and each of the three trajectories follows the
deposit-then-grow recurrence with that same increased contribution. -/
theorem c5_freed_cash_redirected (portfolio : DebtPortfolio) (extra etf : ℚ)
    (strategy : PayoffStrategy) (rl rm rh init : ℚ) (maxMonths : ℕ) :
    ∀ i, combinedSimMonths portfolio extra strategy maxMonths ≤ i →
      i < maxMonths →
      combinedContribution etf (afterDebtFreeContribution portfolio extra etf)
          (combinedSimMonths portfolio extra strategy maxMonths) i =
        etf + extra + portfolio.totalMinimumPayments ∧
      (simulateCombinedScenario portfolio extra etf strategy rl rm rh init
            maxMonths).etfValuesLow.getD i 0 =
        (nthBalance init
            (simulateCombinedScenario portfolio extra etf strategy rl rm rh init
              maxMonths).etfValuesLow i +
          (etf + extra + portfolio.totalMinimumPayments)) * (1 + rl / 12) ∧
      (simulateCombinedScenario portfolio extra etf strategy rl rm rh init
            maxMonths).etfValuesMedium.getD i 0 =
        (nthBalance init
            (simulateCombinedScenario portfolio extra etf strategy rl rm rh init
              maxMonths).etfValuesMedium i +
          (etf + extra + portfolio.totalMinimumPayments)) * (1 + rm / 12) ∧
      (simulateCombinedScenario portfolio extra etf strategy rl rm rh init
            maxMonths).etfValuesHigh.getD i 0 =
        (nthBalance init
            (simulateCombinedScenario portfolio extra etf strategy rl rm rh init
              maxMonths).etfValuesHigh i +
          (etf + extra + portfolio.totalMinimumPayments)) * (1 + rh / 12) := by
  intro i h1 h2
  have hle : combinedSimMonths portfolio extra strategy maxMonths ≤ maxMonths :=
    Nat.min_le_right _ _
  have hi : i < combinedSimMonths portfolio extra strategy maxMonths +
      (maxMonths - combinedSimMonths portfolio extra strategy maxMonths) := by
    omega
  have hb := simulateCombined_etfValues portfolio extra etf strategy rl rm rh
    init maxMonths
  refine ⟨?_, ?_, ?_, ?_⟩
  · simp [combinedContribution, if_neg (not_lt.mpr h1),
      afterDebtFreeContribution]
  · rw [hb.1]
    have := combinedVals_getD etf (afterDebtFreeContribution portfolio extra etf)
      (rl / 12) init _ _ i hi
    rw [if_neg (not_lt.mpr h1)] at this
    rw [this]
    simp [afterDebtFreeContribution]
  · rw [hb.2.1]
    have := combinedVals_getD etf (afterDebtFreeContribution portfolio extra etf)
      (rm / 12) init _ _ i hi
    rw [if_neg (not_lt.mpr h1)] at this
    rw [this]
    simp [afterDebtFreeContribution]
  · rw [hb.2.2]
    have := combinedVals_getD etf (afterDebtFreeContribution portfolio extra etf)
      (rh / 12) init _ _ i hi
    rw [if_neg (not_lt.mpr h1)] at this
    rw [this]
    simp [afterDebtFreeContribution]

theorem c5_freed_cash_redirected_witness :
    combinedSimMonths ⟨[]⟩ 50 .avalanche 3 ≤ 1 ∧ 1 < 3 ∧
      (combinedContribution 25 (afterDebtFreeContribution ⟨[]⟩ 50 25)
          (combinedSimMonths ⟨[]⟩ 50 .avalanche 3) 1 =
        25 + 50 + DebtPortfolio.totalMinimumPayments ⟨[]⟩ ∧
      (simulateCombinedScenario ⟨[]⟩ 50 25 .avalanche 0 0 0 10
            3).etfValuesLow.getD 1 0 =
        (nthBalance 10
            (simulateCombinedScenario ⟨[]⟩ 50 25 .avalanche 0 0 0 10
              3).etfValuesLow 1 +
          (25 + 50 + DebtPortfolio.totalMinimumPayments ⟨[]⟩)) * (1 + 0 / 12) ∧
      (simulateCombinedScenario ⟨[]⟩ 50 25 .avalanche 0 0 0 10
            3).etfValuesMedium.getD 1 0 =
        (nthBalance 10
            (simulateCombinedScenario ⟨[]⟩ 50 25 .avalanche 0 0 0 10
              3).etfValuesMedium 1 +
          (25 + 50 + DebtPortfolio.totalMinimumPayments ⟨[]⟩)) * (1 + 0 / 12) ∧
      (simulateCombinedScenario ⟨[]⟩ 50 25 .avalanche 0 0 0 10
            3).etfValuesHigh.getD 1 0 =
        (nthBalance 10
            (simulateCombinedScenario ⟨[]⟩ 50 25 .avalanche 0 0 0 10
              3).etfValuesHigh 1 +
          (25 + 50 + DebtPortfolio.totalMinimumPayments ⟨[]⟩)) * (1 + 0 / 12)) :=
  ⟨by decide, by decide,
    c5_freed_cash_redirected ⟨[]⟩ 50 25 .avalanche 0 0 0 10 3 1 (by decide)
      (by decide)⟩

/-- C6: every month of `simulate_etf_growth`, and every month of the three
trajectories of `simulate_combined_scenario`, updates the balance by adding
the month's contribution first and then multiplying by one plus the monthly
return (deposit-then-grow), with the identical contribution schedule applied
to the low, medium and high estimates. -/
theorem c6_deposit_then_grow (c annual init : ℚ) (months : ℕ)
    (portfolio : DebtPortfolio) (extra etf : ℚ) (strategy : PayoffStrategy)
    (rl rm rh init2 : ℚ) (maxMonths : ℕ) :
    (∀ i, i < months →
      (simulateEtfGrowth c annual months init).getD i 0 =
        (nthBalance init (simulateEtfGrowth c annual months init) i + c) *
          (1 + annual / 12)) ∧
    (∀ i, i < maxMonths →
      (simulateCombinedScenario portfolio extra etf strategy rl rm rh init2
            maxMonths).etfValuesLow.getD i 0 =
        (nthBalance init2
            (simulateCombinedScenario portfolio extra etf strategy rl rm rh
              init2 maxMonths).etfValuesLow i +
          combinedContribution etf
            (afterDebtFreeContribution portfolio extra etf)
            (combinedSimMonths portfolio extra strategy maxMonths) i) *
          (1 + rl / 12) ∧
      (simulateCombinedScenario portfolio extra etf strategy rl rm rh init2
            maxMonths).etfValuesMedium.getD i 0 =
        (nthBalance init2
            (simulateCombinedScenario portfolio extra etf strategy rl rm rh
              init2 maxMonths).etfValuesMedium i +
          combinedContribution etf
            (afterDebtFreeContribution portfolio extra etf)
            (combinedSimMonths portfolio extra strategy maxMonths) i) *
          (1 + rm / 12) ∧
      (simulateCombinedScenario portfolio extra etf strategy rl rm rh init2
            maxMonths).etfValuesHigh.getD i 0 =
        (nthBalance init2
            (simulateCombinedScenario portfolio extra etf strategy rl rm rh
              init2 maxMonths).etfValuesHigh i +
          combinedContribution etf
            (afterDebtFreeContribution portfolio extra etf)
            (combinedSimMonths portfolio extra strategy maxMonths) i) *
          (1 + rh / 12)) := by
  constructor
  · intro i hi
    match i with
    | 0 =>
      rw [show simulateEtfGrowth c annual months init =
        (growRun c (annual / 12) init months).1 from rfl]
      rw [growRun_getD_zero c (annual / 12) init months hi]
      rfl
    | Nat.succ j =>
      rw [show simulateEtfGrowth c annual months init =
        (growRun c (annual / 12) init months).1 from rfl]
      rw [growRun_getD_succ c (annual / 12) months init j hi]
      rfl
  · intro i hi
    have hle : combinedSimMonths portfolio extra strategy maxMonths ≤
        maxMonths := Nat.min_le_right _ _
    have hi2 : i < combinedSimMonths portfolio extra strategy maxMonths +
        (maxMonths - combinedSimMonths portfolio extra strategy maxMonths) := by
      omega
    have hb := simulateCombined_etfValues portfolio extra etf strategy rl rm rh
      init2 maxMonths
    refine ⟨?_, ?_, ?_⟩
    · rw [hb.1]
      rw [combinedVals_getD etf (afterDebtFreeContribution portfolio extra etf)
        (rl / 12) init2 _ _ i hi2]
      rfl
    · rw [hb.2.1]
      rw [combinedVals_getD etf (afterDebtFreeContribution portfolio extra etf)
        (rm / 12) init2 _ _ i hi2]
      rfl
    · rw [hb.2.2]
      rw [combinedVals_getD etf (afterDebtFreeContribution portfolio extra etf)
        (rh / 12) init2 _ _ i hi2]
      rfl

theorem c6_deposit_then_grow_witness :
    ((2 : ℕ) < 4 ∧
      (simulateEtfGrowth 20 0 4 7).getD 2 0 =
        (nthBalance 7 (simulateEtfGrowth 20 0 4 7) 2 + 20) * (1 + 0 / 12)) ∧
    ((1 : ℕ) < 3 ∧
      ((simulateCombinedScenario ⟨[]⟩ 50 25 .avalanche 0 0 0 10
            3).etfValuesLow.getD 1 0 =
        (nthBalance 10
            (simulateCombinedScenario ⟨[]⟩ 50 25 .avalanche 0 0 0 10
              3).etfValuesLow 1 +
          combinedContribution 25 (afterDebtFreeContribution ⟨[]⟩ 50 25)
            (combinedSimMonths ⟨[]⟩ 50 .avalanche 3) 1) * (1 + 0 / 12) ∧
      (simulateCombinedScenario ⟨[]⟩ 50 25 .avalanche 0 0 0 10
            3).etfValuesMedium.getD 1 0 =
        (nthBalance 10
            (simulateCombinedScenario ⟨[]⟩ 50 25 .avalanche 0 0 0 10
              3).etfValuesMedium 1 +
          combinedContribution 25 (afterDebtFreeContribution ⟨[]⟩ 50 25)
            (combinedSimMonths ⟨[]⟩ 50 .avalanche 3) 1) * (1 + 0 / 12) ∧
      (simulateCombinedScenario ⟨[]⟩ 50 25 .avalanche 0 0 0 10
            3).etfValuesHigh.getD 1 0 =
        (nthBalance 10
            (simulateCombinedScenario ⟨[]⟩ 50 25 .avalanche 0 0 0 10
              3).etfValuesHigh 1 +
          combinedContribution 25 (afterDebtFreeContribution ⟨[]⟩ 50 25)
            (combinedSimMonths ⟨[]⟩ 50 .avalanche 3) 1) * (1 + 0 / 12))) :=
  ⟨⟨by decide,
      (c6_deposit_then_grow 20 0 7 4 ⟨[]⟩ 50 25 .avalanche 0 0 0 10 3).1 2
        (by decide)⟩,
    ⟨by decide,
      (c6_deposit_then_grow 20 0 7 4 ⟨[]⟩ 50 25 .avalanche 0 0 0 10 3).2 1
        (by decide)⟩⟩

/-- C9: on every branch of the rule table, `calculate_allocation_split`
returns a pair of percentages each within [0, 1] that sum exactly to 1. -/
theorem c9_allocation_split_valid (profile : UserProfile)
    (debts : DebtPortfolio) (surplus : ℚ) :
    0 ≤ (calculateAllocationSplit profile debts surplus).1 ∧
    (calculateAllocationSplit profile debts surplus).1 ≤ 1 ∧
    0 ≤ (calculateAllocationSplit profile debts surplus).2 ∧
    (calculateAllocationSplit profile debts surplus).2 ≤ 1 ∧
    (calculateAllocationSplit profile debts surplus).1 +
        (calculateAllocationSplit profile debts surplus).2 = 1 := by
  cases hr : profile.riskTolerance <;>
    simp only [calculateAllocationSplit, hr] <;>
    split_ifs <;> norm_num

theorem simulatePayoffAux_succ (strategy : PayoffStrategy) (extra : ℚ)
    (fuel elapsed : ℕ) (s : PayoffState) :
    simulatePayoffAux strategy extra (fuel + 1) elapsed s =
      if allPaid s.debts then (s, elapsed)
      else simulatePayoffAux strategy extra fuel (elapsed + 1)
        (payoffStep strategy extra s) := rfl

theorem simulatePayoffAux_le (strategy : PayoffStrategy) (extra : ℚ) :
    ∀ (fuel elapsed : ℕ) (s : PayoffState),
      (simulatePayoffAux strategy extra fuel elapsed s).2 ≤ elapsed + fuel := by
  intro fuel
  induction fuel with
  | zero => intro elapsed s; exact Nat.le_add_right _ _
  | succ fuel ih =>
    intro elapsed s
    rw [simulatePayoffAux_succ]
    by_cases h : allPaid s.debts
    · rw [if_pos h]; omega
    · rw [if_neg h]
      have := ih (elapsed + 1) (payoffStep strategy extra s)
      omega

theorem simulatePayoff_months_le (debts : List Debt) (extra : ℚ)
    (strategy : PayoffStrategy) (maxMonths : ℕ) :
    (simulatePayoff debts extra strategy maxMonths).2 ≤ maxMonths := by
  have := simulatePayoffAux_le strategy extra maxMonths 0 ⟨debts, [], 0⟩
  simpa [simulatePayoff] using this

theorem allPaid_single (d : Debt) :
    allPaid [d] = decide (d.currentBalance ≤ payoffTol) := by
  simp [allPaid]

theorem payoffStep_single (strategy : PayoffStrategy) (extra : ℚ) (d : Debt)
    (snaps : List ℚ) (ti : ℚ) (hopen : payoffTol < d.currentBalance) :
    (payoffStep strategy extra ⟨[d], snaps, ti⟩).debts =
      [{ d with currentBalance := singleDebtNext extra d }] := by
  have hd : accrueAndPayMin d =
      ({ d with currentBalance := postMinBalance d },
        d.interestThisMonth,
        min d.minimumPayment (d.currentBalance + d.interestThisMonth)) := by
    rw [accrueAndPayMin, if_pos hopen, postMinBalance]
  have henum : List.enum [{ d with currentBalance := postMinBalance d }] =
      [(0, { d with currentBalance := postMinBalance d })] := rfl
  simp only [payoffStep, accrueAndPayMinAll, List.foldr, hd]
  by_cases h2 : payoffTol < postMinBalance d
  · rw [show prioritize strategy
        [{ d with currentBalance := postMinBalance d }] = [0] by
      simp only [prioritize, henum]
      rw [List.filter_cons_of_pos (by simpa using h2)]
      simp [sortBy, insertBy]]
    simp only [waterfall, List.getD_cons_zero, List.set_cons_zero]
    simp [singleDebtNext, if_pos h2]
  · rw [show prioritize strategy
        [{ d with currentBalance := postMinBalance d }] = [] by
      simp only [prioritize, henum]
      rw [List.filter_cons_of_neg (by simpa using h2)]
      simp [sortBy]]
    simp only [waterfall]
    simp [singleDebtNext, if_neg h2]

theorem combinedFinal_getD (c1 c2 r b : ℚ) (sm k : ℕ) :
    ((growRun c1 r b sm).1 ++
        (growRun c2 r (growRun c1 r b sm).2 k).1).getLast?.getD b =
      (growRun c2 r (growRun c1 r b sm).2 k).2 := by
  rw [List.getLast?_append]
  match k with
  | 0 =>
    simp only [growRun, Option.or]
    exact growRun_last_getD c1 r sm b
  | Nat.succ m =>
    rw [growRun_last_some c2 r (m + 1) _ (Nat.succ_pos m)]
    rfl

theorem simulateCombined_final (portfolio : DebtPortfolio) (extra etf : ℚ)
    (strategy : PayoffStrategy) (rl rm rh init : ℚ) (maxMonths : ℕ) :
    (simulateCombinedScenario portfolio extra etf strategy rl rm rh init
        maxMonths).finalEtfValueLow =
      (growRun (afterDebtFreeContribution portfolio extra etf) (rl / 12)
          (growRun etf (rl / 12) init
            (combinedSimMonths portfolio extra strategy maxMonths)).2
          (maxMonths - combinedSimMonths portfolio extra strategy maxMonths)).2 ∧
    (simulateCombinedScenario portfolio extra etf strategy rl rm rh init
        maxMonths).finalEtfValueMedium =
      (growRun (afterDebtFreeContribution portfolio extra etf) (rm / 12)
          (growRun etf (rm / 12) init
            (combinedSimMonths portfolio extra strategy maxMonths)).2
          (maxMonths - combinedSimMonths portfolio extra strategy maxMonths)).2 ∧
    (simulateCombinedScenario portfolio extra etf strategy rl rm rh init
        maxMonths).finalEtfValueHigh =
      (growRun (afterDebtFreeContribution portfolio extra etf) (rh / 12)
          (growRun etf (rh / 12) init
            (combinedSimMonths portfolio extra strategy maxMonths)).2
          (maxMonths - combinedSimMonths portfolio extra strategy maxMonths)).2 := by
  refine ⟨?_, ?_, ?_⟩ <;>
    exact combinedFinal_getD _ _ _ _ _ _

theorem simulateCombined_final_low_zero_rate (portfolio : DebtPortfolio)
    (extra etf : ℚ) (strategy : PayoffStrategy) (rm rh init : ℚ)
    (maxMonths : ℕ) :
    (simulateCombinedScenario portfolio extra etf strategy 0 rm rh init
        maxMonths).finalEtfValueLow =
      init + (combinedSimMonths portfolio extra strategy maxMonths) * etf +
        (((maxMonths - combinedSimMonths portfolio extra strategy maxMonths :
            ℕ)) : ℚ) *
          afterDebtFreeContribution portfolio extra etf := by
  have hf := (simulateCombined_final portfolio extra etf strategy 0 rm rh init
    maxMonths).1
  rw [show (0 : ℚ) / 12 = 0 by norm_num] at hf
  rw [growRun_zero_rate, growRun_zero_rate] at hf
  exact hf

theorem singleDebtNext_unit (nm : String) (b : ℚ) (hb : 1 ≤ b) :
    singleDebtNext 0 ⟨nm, b, 0, 1⟩ = b - 1 := by
  have hpost : postMinBalance ⟨nm, b, 0, 1⟩ = b - 1 := by
    simp only [postMinBalance, Debt.interestThisMonth, Debt.monthlyInterestRate]
    rw [show (0 : ℚ) / 12 = 0 by norm_num, mul_zero, add_zero, min_eq_left hb]
  rw [singleDebtNext, hpost, min_eq_right (by linarith)]
  split_ifs <;> ring

theorem payoffAux_unit_run (strat : PayoffStrategy) (nm : String) :
    ∀ (k : ℕ) (elapsed : ℕ) (snaps : List ℚ) (ti : ℚ) (b : ℚ), (k : ℚ) ≤ b →
      ∃ snaps2 ti2,
        simulatePayoffAux strat 0 k elapsed ⟨[⟨nm, b, 0, 1⟩], snaps, ti⟩ =
          (⟨[⟨nm, b - k, 0, 1⟩], snaps2, ti2⟩, elapsed + k) := by
  intro k
  induction k with
  | zero =>
    intro elapsed snaps ti b _
    refine ⟨snaps, ti, ?_⟩
    simp [simulatePayoffAux]
  | succ k ih =>
    intro elapsed snaps ti b hb
    have hk0 : (0 : ℚ) ≤ (k : ℚ) := Nat.cast_nonneg k
    have hb1 : 1 ≤ b := by push_cast at hb; linarith
    have hopen : payoffTol < b := by rw [payoffTol]; linarith
    rw [simulatePayoffAux_succ, if_neg (by
      simp only [allPaid_single, decide_eq_true_eq, payoffTol]
      intro hcon
      linarith)]
    have hstep : (payoffStep strat 0
        ⟨[⟨nm, b, 0, 1⟩], snaps, ti⟩).debts = [⟨nm, b - 1, 0, 1⟩] := by
      rw [payoffStep_single strat 0 _ snaps ti hopen,
        singleDebtNext_unit nm b hb1]
    have heta : payoffStep strat 0 ⟨[⟨nm, b, 0, 1⟩], snaps, ti⟩ =
        ⟨[⟨nm, b - 1, 0, 1⟩],
          (payoffStep strat 0 ⟨[⟨nm, b, 0, 1⟩], snaps, ti⟩).snapshots,
          (payoffStep strat 0 ⟨[⟨nm, b, 0, 1⟩], snaps, ti⟩).totalInterest⟩ := by
      rw [← hstep]
    obtain ⟨s2, t2, hIH⟩ := ih (elapsed + 1)
      (payoffStep strat 0 ⟨[⟨nm, b, 0, 1⟩], snaps, ti⟩).snapshots
      (payoffStep strat 0 ⟨[⟨nm, b, 0, 1⟩], snaps, ti⟩).totalInterest
      (b - 1) (by push_cast at hb ⊢; linarith)
    refine ⟨s2, t2, ?_⟩
    rw [heta, hIH]
    have h1 : b - 1 - (k : ℚ) = b - ((k : ℕ) + 1 : ℕ) := by push_cast; ring
    rw [h1]
    have h2 : elapsed + 1 + k = elapsed + (k + 1) := by omega
    rw [h2]

/-- C4 (amended): `months_to_debt_free` of `simulate_combined_scenario` is
`None` exactly when the underlying payoff simulation returns the sentinel
`max_months` — that is, when payoff does not occur in strictly fewer than
`max_months` months, which conflates hitting the horizon cap without payoff
with payoff at exactly the horizon month; any finite value it reports is the
true payoff month count below the horizon, and the comparison table renders
the `None` case as `N/A`. -/
theorem c4_none_iff_sentinel (portfolio : DebtPortfolio) (extra etf : ℚ)
    (strategy : PayoffStrategy) (rl rm rh init : ℚ) (maxMonths : ℕ) :
    (((simulateCombinedScenario portfolio extra etf strategy rl rm rh init
          maxMonths).monthsToDebtFree = none) ↔
        (simulatePayoff portfolio.debts extra strategy maxMonths).2 =
          maxMonths) ∧
    (∀ m, (simulateCombinedScenario portfolio extra etf strategy rl rm rh init
          maxMonths).monthsToDebtFree = some m →
        m = (simulatePayoff portfolio.debts extra strategy maxMonths).2 ∧
          m < maxMonths) ∧
    monthsCell none = "N/A" := by
  have hle := simulatePayoff_months_le portfolio.debts extra strategy maxMonths
  have hfield : (simulateCombinedScenario portfolio extra etf strategy rl rm rh
      init maxMonths).monthsToDebtFree =
      if (simulatePayoff portfolio.debts extra strategy maxMonths).2 < maxMonths
      then some ((simulatePayoff portfolio.debts extra strategy maxMonths).2)
      else none := rfl
  rw [hfield]
  by_cases h : (simulatePayoff portfolio.debts extra strategy maxMonths).2 <
      maxMonths
  · rw [if_pos h]
    refine ⟨⟨fun hc => by simp at hc, fun hc => by omega⟩, ?_, rfl⟩
    intro m hm
    simp only [Option.some_inj] at hm
    exact ⟨hm.symm, by omega⟩
  · rw [if_neg h]
    refine ⟨⟨fun _ => by omega, fun _ => rfl⟩, ?_, rfl⟩
    intro m hm
    simp at hm

theorem c4_none_iff_sentinel_witness :
    (simulateCombinedScenario ⟨[]⟩ 0 0 .avalanche 0 0 0 0 3).monthsToDebtFree =
        some 0 ∧
      (0 = (simulatePayoff (DebtPortfolio.debts ⟨[]⟩) 0 .avalanche 3).2 ∧
        0 < 3) :=
  ⟨by decide,
    (c4_none_iff_sentinel ⟨[]⟩ 0 0 .avalanche 0 0 0 0 3).2.1 0 (by decide)⟩

/-- C4 (counterexample): a single debt of balance 5 at rate 0 with minimum
payment 1 pays off exactly at the 5-month horizon, yet
`simulate_combined_scenario` reports `months_to_debt_free = None` — the
sentinel is not reserved for hitting the cap without payoff. -/
theorem c4_counterexample :
    (simulateCombinedScenario ⟨[⟨"loan", 5, 0, 1⟩]⟩ 0 0 .avalanche 0 0 0 0
        5).monthsToDebtFree = none ∧
    allPaid (simulatePayoff [⟨"loan", 5, 0, 1⟩] 0 .avalanche 5).1.debts =
      true := by
  obtain ⟨s2, t2, h⟩ := payoffAux_unit_run .avalanche "loan" 5 0 [] 0 5
    (by norm_num)
  have hsp : simulatePayoff [⟨"loan", 5, 0, 1⟩] 0 .avalanche 5 =
      (⟨[⟨"loan", 5 - (5 : ℕ), 0, 1⟩], s2, t2⟩, 0 + 5) := by
    rw [simulatePayoff]; exact h
  constructor
  · have hfield : (simulateCombinedScenario ⟨[⟨"loan", 5, 0, 1⟩]⟩ 0 0
        .avalanche 0 0 0 0 5).monthsToDebtFree =
        if (simulatePayoff [⟨"loan", 5, 0, 1⟩] 0 .avalanche 5).2 < 5
        then some ((simulatePayoff [⟨"loan", 5, 0, 1⟩] 0 .avalanche 5).2)
        else none := rfl
    rw [hfield, hsp]
    norm_num
  · rw [hsp]
    simp only [allPaid_single, decide_eq_true_eq, payoffTol]
    norm_num

/-- C1 (amended): each net-worth field of the `ScenarioComparison` returned
by `create_scenario_comparison` equals the corresponding final investment
value minus the remaining-debt figure the code actually uses — zero when the
reported months-to-debt-free is a truthy (nonzero, non-`None`) month count,
and otherwise the caller portfolio's total balance as it stood BEFORE the
simulation, not the outstanding balance at the horizon. -/
theorem c1_net_worth_formula (portfolio : DebtPortfolio) (extra etf : ℚ)
    (strategy : PayoffStrategy) (rl rm rh init : ℚ) :
    (createScenarioComparison portfolio extra etf strategy rl rm rh
          init).netWorthAtEndLow =
        (createScenarioComparison portfolio extra etf strategy rl rm rh
            init).estimatedEtfValueLow -
          remainingDebtFigure portfolio
            (createScenarioComparison portfolio extra etf strategy rl rm rh
              init).monthsToDebtFree ∧
    (createScenarioComparison portfolio extra etf strategy rl rm rh
          init).netWorthAtEndMedium =
        (createScenarioComparison portfolio extra etf strategy rl rm rh
            init).estimatedEtfValueMedium -
          remainingDebtFigure portfolio
            (createScenarioComparison portfolio extra etf strategy rl rm rh
              init).monthsToDebtFree ∧
    (createScenarioComparison portfolio extra etf strategy rl rm rh
          init).netWorthAtEndHigh =
        (createScenarioComparison portfolio extra etf strategy rl rm rh
            init).estimatedEtfValueHigh -
          remainingDebtFigure portfolio
            (createScenarioComparison portfolio extra etf strategy rl rm rh
              init).monthsToDebtFree :=
  ⟨rfl, rfl, rfl⟩


theorem simulateCombined_monthsField (portfolio : DebtPortfolio)
    (extra etf : ℚ) (strategy : PayoffStrategy) (rl rm rh init : ℚ)
    (maxMonths : ℕ) :
    (simulateCombinedScenario portfolio extra etf strategy rl rm rh init
        maxMonths).monthsToDebtFree =
      if (simulatePayoff portfolio.debts extra strategy maxMonths).2 < maxMonths
      then some ((simulatePayoff portfolio.debts extra strategy maxMonths).2)
      else none := rfl

theorem createScenario_fields (portfolio : DebtPortfolio) (extra etf : ℚ)
    (strategy : PayoffStrategy) (rl rm rh init : ℚ) :
    (createScenarioComparison portfolio extra etf strategy rl rm rh
        init).netWorthAtEndLow =
      (simulateCombinedScenario portfolio extra etf strategy rl rm rh init
          600).finalEtfValueLow -
        remainingDebtFigure portfolio
          (simulateCombinedScenario portfolio extra etf strategy rl rm rh init
            600).monthsToDebtFree ∧
    (createScenarioComparison portfolio extra etf strategy rl rm rh
        init).estimatedEtfValueLow =
      (simulateCombinedScenario portfolio extra etf strategy rl rm rh init
        600).finalEtfValueLow ∧
    (createScenarioComparison portfolio extra etf strategy rl rm rh
        init).monthsToDebtFree =
      (simulateCombinedScenario portfolio extra etf strategy rl rm rh init
        600).monthsToDebtFree :=
  ⟨rfl, rfl, rfl⟩

set_option maxRecDepth 8000

set_option maxHeartbeats 1000000

/-- C1 (counterexample): a debt of 1000 at rate 0 with minimum payment 1 is
unresolved at the 600-month horizon with 400 still outstanding, yet the
scenario's net worth subtracts the full starting balance 1000: the reported
net worth (100 - 1000 = -900) differs from final investment value minus the
outstanding balance at the horizon (100 - 400 = -300). -/
theorem c1_counterexample :
    (createScenarioComparison ⟨[⟨"loan", 1000, 0, 1⟩]⟩ 0 0 .avalanche 0 0 0
        100).netWorthAtEndLow ≠
      (createScenarioComparison ⟨[⟨"loan", 1000, 0, 1⟩]⟩ 0 0 .avalanche 0 0 0
          100).estimatedEtfValueLow -
        specRemainingDebtAtHorizon ⟨[⟨"loan", 1000, 0, 1⟩]⟩ 0 .avalanche
          600 := by
  obtain ⟨s2, t2, h⟩ := payoffAux_unit_run .avalanche "loan" 600 0 [] 0 1000
    (by norm_num)
  have hsp : simulatePayoff [⟨"loan", 1000, 0, 1⟩] 0 .avalanche 600 =
      (⟨[⟨"loan", 1000 - (600 : ℕ), 0, 1⟩], s2, t2⟩, 0 + 600) := by
    rw [simulatePayoff]; exact h
  have hmonths : (simulatePayoff [⟨"loan", 1000, 0, 1⟩] 0 .avalanche 600).2 =
      600 := by rw [hsp]
  have hsm : combinedSimMonths ⟨[⟨"loan", 1000, 0, 1⟩]⟩ 0 .avalanche 600 =
      600 := by
    rw [combinedSimMonths]
    rw [show DebtPortfolio.debts ⟨[⟨"loan", 1000, 0, 1⟩]⟩ =
      [⟨"loan", 1000, 0, 1⟩] from rfl, hmonths]
    exact min_self 600
  have hMon : (simulateCombinedScenario ⟨[⟨"loan", 1000, 0, 1⟩]⟩ 0 0 .avalanche
      0 0 0 100 600).monthsToDebtFree = none := by
    rw [simulateCombined_monthsField]
    rw [show DebtPortfolio.debts ⟨[⟨"loan", 1000, 0, 1⟩]⟩ =
      [⟨"loan", 1000, 0, 1⟩] from rfl, hmonths]
    norm_num
  have hFin : (simulateCombinedScenario ⟨[⟨"loan", 1000, 0, 1⟩]⟩ 0 0 .avalanche
      0 0 0 100 600).finalEtfValueLow = 100 := by
    have hf := simulateCombined_final_low_zero_rate ⟨[⟨"loan", 1000, 0, 1⟩]⟩
      0 0 .avalanche 0 0 100 600
    rw [hsm, Nat.sub_self] at hf
    exact hf.trans (by push_cast; ring)
  have hN := (createScenario_fields ⟨[⟨"loan", 1000, 0, 1⟩]⟩ 0 0 .avalanche
    0 0 0 100).1
  have hE := (createScenario_fields ⟨[⟨"loan", 1000, 0, 1⟩]⟩ 0 0 .avalanche
    0 0 0 100).2.1
  have hSpec : specRemainingDebtAtHorizon ⟨[⟨"loan", 1000, 0, 1⟩]⟩ 0 .avalanche
      600 = 400 := by
    have e1 : specRemainingDebtAtHorizon ⟨[⟨"loan", 1000, 0, 1⟩]⟩ 0 .avalanche
        600 =
        if (simulatePayoff [⟨"loan", 1000, 0, 1⟩] 0 .avalanche 600).2 < 600
        then 0
        else (((simulatePayoff [⟨"loan", 1000, 0, 1⟩] 0
          .avalanche 600).1.debts.map Debt.currentBalance).sum) := rfl
    rw [hsp] at e1
    rw [e1]
    rw [if_neg (by norm_num)]
    simp only [List.map_cons, List.map_nil, List.sum_cons, List.sum_nil]
    push_cast
    ring
  intro heq
  rw [hN, hE, hMon, hFin, hSpec] at heq
  simp only [remainingDebtFigure, DebtPortfolio.totalBalance, List.map_cons,
    List.map_nil, List.sum_cons, List.sum_nil] at heq
  norm_num at heq

theorem listStartsWith_append {α : Type} [DecidableEq α] (p : List α) :
    ∀ (l1 l2 : List α), listStartsWith p l1 = true →
      listStartsWith p (l1 ++ l2) = true := by
  induction p with
  | nil => intro l1 l2 _; rfl
  | cons a as ih =>
    intro l1 l2 h
    match l1 with
    | [] => exact absurd h (by simp [listStartsWith])
    | b :: bs =>
      simp only [listStartsWith, Bool.and_eq_true, decide_eq_true_eq] at h
      simp only [List.cons_append, listStartsWith, Bool.and_eq_true,
        decide_eq_true_eq]
      exact ⟨h.1, ih bs l2 h.2⟩

theorem isCritical_flagMinNotCoverInterest (s : String) :
    (Warning.flagMinNotCoverInterest s).isCritical = true := by
  simp only [Warning.isCritical, Warning.render, Bool.or_eq_true]
  left
  simp only [String.toList, String.data_append, List.append_assoc]
  exact listStartsWith_append _ _ _ (by decide)

theorem nonAmortizing_blocks_plan (profile : UserProfile)
    (debts : DebtPortfolio) (strategy : PayoffStrategy) (d : Debt)
    (hmem : d ∈ debts.debts) (hbal : 0 < d.currentBalance)
    (hmin : d.minimumPayment ≤ d.interestThisMonth) :
    Warning.flagMinNotCoverInterest d.name ∈ (validateInputs profile debts).2 ∧
    (validateInputs profile debts).1 = false ∧
    createPlan profile debts strategy =
      .errorOut (validateInputs profile debts).2 := by
  have hflag : Warning.flagMinNotCoverInterest d.name ∈
      getRedFlags profile debts := by
    simp only [getRedFlags]
    refine List.mem_append.mpr (Or.inr ?_)
    exact List.mem_map.mpr ⟨d, List.mem_filter.mpr ⟨hmem, by
      rw [decide_eq_true_eq]; exact ⟨hbal, hmin⟩⟩, rfl⟩
  have hmemv : Warning.flagMinNotCoverInterest d.name ∈
      (validateInputs profile debts).2 := by
    simp only [validateInputs]
    exact List.mem_append.mpr (Or.inr hflag)
  have hcrit : Warning.flagMinNotCoverInterest d.name ∈
      (validateInputs profile debts).2.filter Warning.isCritical :=
    List.mem_filter.mpr ⟨hmemv, isCritical_flagMinNotCoverInterest d.name⟩
  have hfalse : (validateInputs profile debts).1 = false := by
    have hne := List.ne_nil_of_mem hcrit
    simp only [validateInputs] at hne ⊢
    rw [List.isEmpty_eq_false_iff_exists_mem]
    exact ⟨_, hcrit⟩
  refine ⟨hmemv, hfalse, ?_⟩
  rw [createPlan]
  rw [if_neg (by rw [hfalse]; exact Bool.false_ne_true)]

/-- C3 (amended): a debt with positive balance whose minimum payment does not
cover its monthly interest is detected before any simulation runs and is
surfaced as a distinct CRITICAL red flag, but the condition is fatal to
planning rather than advisory: `validate_inputs` classifies the flag as a
critical error and `create_plan` returns the warnings-only output without
running the simulation, so the caller receives no months-to-debt-free at
all. -/
theorem c3_non_amortizing_fatal (profile : UserProfile)
    (debts : DebtPortfolio) (strategy : PayoffStrategy) (d : Debt)
    (hmem : d ∈ debts.debts) (hbal : 0 < d.currentBalance)
    (hmin : d.minimumPayment ≤ d.interestThisMonth) :
    Warning.flagMinNotCoverInterest d.name ∈ (validateInputs profile debts).2 ∧
    (validateInputs profile debts).1 = false ∧
    createPlan profile debts strategy =
      .errorOut (validateInputs profile debts).2 ∧
    (createPlan profile debts strategy).ranSimulation = false := by
  obtain ⟨h1, h2, h3⟩ :=
    nonAmortizing_blocks_plan profile debts strategy d hmem hbal hmin
  exact ⟨h1, h2, h3, by rw [h3]; rfl⟩

theorem c3_non_amortizing_fatal_witness :
    (⟨"trap", 1000, 6 / 10, 1⟩ : Debt) ∈
        (DebtPortfolio.debts ⟨[⟨"trap", 1000, 6 / 10, 1⟩]⟩) ∧
      (0 : ℚ) < 1000 ∧
      (1 : ℚ) ≤ Debt.interestThisMonth ⟨"trap", 1000, 6 / 10, 1⟩ ∧
      (Warning.flagMinNotCoverInterest "trap" ∈
          (validateInputs
            ⟨[⟨1000, .monthly⟩], [], 0, 0, .conservative, 60, 3⟩
            ⟨[⟨"trap", 1000, 6 / 10, 1⟩]⟩).2 ∧
        (validateInputs ⟨[⟨1000, .monthly⟩], [], 0, 0, .conservative, 60, 3⟩
            ⟨[⟨"trap", 1000, 6 / 10, 1⟩]⟩).1 = false ∧
        createPlan ⟨[⟨1000, .monthly⟩], [], 0, 0, .conservative, 60, 3⟩
            ⟨[⟨"trap", 1000, 6 / 10, 1⟩]⟩ .avalanche =
          .errorOut (validateInputs
            ⟨[⟨1000, .monthly⟩], [], 0, 0, .conservative, 60, 3⟩
            ⟨[⟨"trap", 1000, 6 / 10, 1⟩]⟩).2 ∧
        (createPlan ⟨[⟨1000, .monthly⟩], [], 0, 0, .conservative, 60, 3⟩
            ⟨[⟨"trap", 1000, 6 / 10, 1⟩]⟩ .avalanche).ranSimulation = false) :=
  ⟨List.mem_singleton.mpr rfl, by norm_num,
    by norm_num [Debt.interestThisMonth, Debt.monthlyInterestRate],
    c3_non_amortizing_fatal
      ⟨[⟨1000, .monthly⟩], [], 0, 0, .conservative, 60, 3⟩
      ⟨[⟨"trap", 1000, 6 / 10, 1⟩]⟩ .avalanche ⟨"trap", 1000, 6 / 10, 1⟩
      (List.mem_singleton.mpr rfl) (by norm_num)
      (by norm_num [Debt.interestThisMonth, Debt.monthlyInterestRate])⟩

/-- C3 (counterexample): for a concrete portfolio holding one debt whose
minimum payment (1) does not cover its monthly interest (50), `create_plan`
does not run the simulation at all — it returns the warnings-only output —
contradicting the claim that the condition is advisory and the simulation
still runs. -/
theorem c3_counterexample :
    (createPlan ⟨[⟨1000, .monthly⟩], [], 0, 0, .conservative, 60, 3⟩
        ⟨[⟨"trap", 1000, 6 / 10, 1⟩]⟩ .avalanche).ranSimulation = false ∧
    Warning.flagMinNotCoverInterest "trap" ∈
      (validateInputs ⟨[⟨1000, .monthly⟩], [], 0, 0, .conservative, 60, 3⟩
        ⟨[⟨"trap", 1000, 6 / 10, 1⟩]⟩).2 := by
  obtain ⟨h1, h2, h3⟩ := nonAmortizing_blocks_plan
    ⟨[⟨1000, .monthly⟩], [], 0, 0, .conservative, 60, 3⟩
    ⟨[⟨"trap", 1000, 6 / 10, 1⟩]⟩ .avalanche ⟨"trap", 1000, 6 / 10, 1⟩
    (List.mem_singleton.mpr rfl) (by norm_num)
    (by norm_num [Debt.interestThisMonth, Debt.monthlyInterestRate])
  exact ⟨by rw [h3]; rfl, h1⟩
